import Mathlib

/-!
Verification of the pandoc svgbob filter (`pandoc_svgbob_filter/__init__.py`)
against its specification.

The Python source is shallowly embedded below: pure computations become Lean
functions, filesystem / subprocess side effects become an explicit `Effect`
trace, and the in-place mutation performed on the visited node is made explicit
by returning the node's post-mutation value alongside the replacement node.
-/

set_option maxRecDepth 10000

namespace SvgbobFilter

/-! ## SHA-1 (embedding of `hashlib.sha1(...).hexdigest()`)

The filter keys artifact filenames on the first 8 hex characters of the SHA-1
digest of the UTF-8 encoded source text.  We implement SHA-1 over `List Nat`
byte sequences (each byte `< 256`), words as `Nat` reduced mod `2 ^ 32`. -/

/-- Truncate to a 32-bit word. -/
def w32 (n : Nat) : Nat := n % 4294967296

/-- Rotate a 32-bit word left by `b` bits. -/
def rotl (b n : Nat) : Nat := w32 ((n <<< b) ||| (n >>> (32 - b)))

/-- SHA-1 round function `f_t`. -/
def sha1_f (t b c d : Nat) : Nat :=
  if t < 20 then (b &&& c) ||| ((b ^^^ 4294967295) &&& d)
  else if t < 40 then b ^^^ c ^^^ d
  else if t < 60 then (b &&& c) ||| (b &&& d) ||| (c &&& d)
  else b ^^^ c ^^^ d

/-- SHA-1 round constant `K_t`. -/
def sha1_k (t : Nat) : Nat :=
  if t < 20 then 1518500249
  else if t < 40 then 1859775393
  else if t < 60 then 2400959708
  else 3395469782

/-- Pack big-endian groups of 4 bytes into 32-bit words. -/
def bytesToWords : List Nat → List Nat
  | b0 :: b1 :: b2 :: b3 :: rest =>
      ((b0 <<< 24) + (b1 <<< 16) + (b2 <<< 8) + b3) :: bytesToWords rest
  | _ => []

/-- One step of the message-schedule expansion: append
`rotl 1 (w[n-3] ^^^ w[n-8] ^^^ w[n-14] ^^^ w[n-16])`. -/
def expandStep (w : List Nat) : List Nat :=
  let n := w.length
  w ++ [rotl 1 ((w.getD (n - 3) 0) ^^^ (w.getD (n - 8) 0) ^^^
                (w.getD (n - 14) 0) ^^^ (w.getD (n - 16) 0))]

/-- Expand 16 schedule words to 80. -/
def schedule (w16 : List Nat) : List Nat := Nat.repeat expandStep 64 w16

/-- SHA-1 state: five 32-bit words. -/
structure Sha1State where
  a : Nat
  b : Nat
  c : Nat
  d : Nat
  e : Nat
  deriving Repr, DecidableEq

/-- Initial SHA-1 state. -/
def sha1_init : Sha1State :=
  ⟨1732584193, 4023233417, 2562383102, 271733878, 3285377520⟩

/-- One SHA-1 round at index `t` with schedule word `wt`. -/
def sha1_round (s : Sha1State) (twt : Nat × Nat) : Sha1State :=
  let t := twt.1
  let wt := twt.2
  let temp := w32 (rotl 5 s.a + sha1_f t s.b s.c s.d + s.e + sha1_k t + wt)
  ⟨temp, s.a, rotl 30 s.b, s.c, s.d⟩

/-- Process one 64-byte chunk (given as 16 words). -/
def sha1_chunk (h : Sha1State) (w16 : List Nat) : Sha1State :=
  let fin := ((List.range 80).zip (schedule w16)).foldl sha1_round h
  ⟨w32 (h.a + fin.a), w32 (h.b + fin.b), w32 (h.c + fin.c),
   w32 (h.d + fin.d), w32 (h.e + fin.e)⟩

/-- Split a byte list into 64-byte chunks (fuel-driven for kernel reduction). -/
def chunks64 : Nat → List Nat → List (List Nat)
  | 0, _ => []
  | _, [] => []
  | fuel + 1, l => l.take 64 :: chunks64 fuel (l.drop 64)

/-- Big-endian 8-byte encoding of the bit length. -/
def lengthBytes (ml : Nat) : List Nat :=
  [(ml >>> 56) &&& 255, (ml >>> 48) &&& 255, (ml >>> 40) &&& 255,
   (ml >>> 32) &&& 255, (ml >>> 24) &&& 255, (ml >>> 16) &&& 255,
   (ml >>> 8) &&& 255, ml &&& 255]

/-- SHA-1 message padding: `0x80`, zeros to 56 mod 64, then the bit length. -/
def sha1_pad (msg : List Nat) : List Nat :=
  let len := msg.length
  let k := (119 - len % 64) % 64
  msg ++ [128] ++ List.replicate k 0 ++ lengthBytes (len * 8)

/-- SHA-1 digest of a byte list, as the five 32-bit state words. -/
def sha1 (msg : List Nat) : Sha1State :=
  let padded := sha1_pad msg
  (chunks64 (padded.length + 1) padded).foldl
    (fun h chunk => sha1_chunk h (bytesToWords chunk)) sha1_init

/-- Lower-case hex digit. -/
def hexDigit (n : Nat) : Char :=
  if n < 10 then Char.ofNat (48 + n) else Char.ofNat (87 + n)

/-- Eight lower-case hex digits of a 32-bit word, most significant first. -/
def wordHex (w : Nat) : List Char :=
  (List.range 8).map (fun i => hexDigit ((w >>> ((7 - i) * 4)) &&& 15))

/-- `hashlib.sha1(bytes).hexdigest()`: 40 lower-case hex characters. -/
def sha1_hexdigest (msg : List Nat) : String :=
  let s := sha1 msg
  ⟨wordHex s.a ++ wordHex s.b ++ wordHex s.c ++ wordHex s.d ++ wordHex s.e⟩

/-- UTF-8 encoding of a single unicode scalar value (Python `str.encode`). -/
def utf8EncodeCharNat (c : Char) : List Nat :=
  let v := c.toNat
  if v < 128 then [v]
  else if v < 2048 then [192 ||| (v >>> 6), 128 ||| (v &&& 63)]
  else if v < 65536 then
    [224 ||| (v >>> 12), 128 ||| ((v >>> 6) &&& 63), 128 ||| (v &&& 63)]
  else
    [240 ||| (v >>> 18), 128 ||| ((v >>> 12) &&& 63),
     128 ||| ((v >>> 6) &&& 63), 128 ||| (v &&& 63)]

/-- UTF-8 encoding of a string as a byte list (Python `s.encode("utf-8")`). -/
def utf8Bytes (s : String) : List Nat :=
  (s.data.map utf8EncodeCharNat).flatten

example : sha1_hexdigest (utf8Bytes "abc") = "a9993e364706816aba3e25717850c26c9cd0d89d" := by decide

/-! ## Data model

Metadata and attribute values.  Panflute hands the filter strings for node
attributes and plain Python values (strings or numbers) for metadata; the
hardcoded defaults are the string `"Arial"` and the integers 14, 1, 2.
Both kinds are formatted into the option string with `"{}".format(value)`,
embedded as `Value.fmt`.  A metadata key may also be bound to Python `None`,
which we model as a `none` entry in the metadata map. -/

inductive Value where
  | str (s : String)
  | int (n : Int)
  deriving Repr, DecidableEq

/-- Python `"{}".format(v)` for the values that can appear here. -/
def Value.fmt : Value → String
  | .str s => s
  | .int n => toString n

/-- Node attribute mapping (`elem.attributes`): ordered key/value pairs with
`dict.get`-style lookup of the first binding. -/
abbrev Attributes := List (String × Value)

/-- Document metadata store: a key bound to `none` models a key that is
present but holds Python `None`. -/
abbrev Metadata := List (String × Option Value)

/-- The document, as far as the filter reads it: its metadata store. -/
structure Doc where
  metadata : Metadata
  deriving Repr, DecidableEq

/-- `doc.get_metadata(key, default)`: the stored value when the key is
present, else the default. -/
def Doc.get_metadata (doc : Doc) (key : String) (dflt : Option Value) : Option Value :=
  match doc.metadata.lookup key with
  | some v => v
  | none => dflt

/-- `attributes.get(key, default)` (Python `dict.get`). -/
def attrGet (attributes : Attributes) (key : String) (dflt : Option Value) : Option Value :=
  match attributes.lookup key with
  | some v => some v
  | none => dflt

/-- Document tree elements, as far as the filter inspects and builds them.
Inline caption content is opaque to the filter and modelled as `List String`. -/
inductive Elem where
  | codeBlock (text : String) (identifier : String) (classes : List String)
      (attributes : Attributes)
  | link (content : List String) (url : String) (identifier : String)
      (classes : List String) (attributes : Attributes) (title : String)
  | image (content : List String) (url : String) (identifier : String)
      (classes : List String) (attributes : Attributes) (title : String)
  | para (child : Elem)
  | other (tag : String)
  deriving Repr, DecidableEq

/-- Side effects the filter performs, in program order.
`popenCommunicate` is `sp.Popen(...)` followed by `proc.communicate(input=...)`,
which feeds the data to standard input and blocks until the subprocess exits.
`popenSpawn` is a bare `sp.Popen(...)`: the subprocess is launched and the
filter continues without waiting for completion or checking its exit status. -/
inductive Effect where
  | mkdir (dir : String)
  | readFile (path : String)
  | debug (msg : String)
  | popenCommunicate (command : String) (stdinData : String)
  | popenSpawn (command : String)
  deriving Repr, DecidableEq

/-- Python `sep.join(items)`. -/
def joinWith (sep : String) : List String → String
  | [] => ""
  | [x] => x
  | x :: xs => x ++ sep ++ joinWith sep xs

/-- Python slicing `s[:n]` (character-wise; the strings sliced here are
ASCII hex digests). -/
def strTake (s : String) (n : Nat) : String := ⟨s.data.take n⟩

/-- Whether a POSIX path is absolute (starts with `/`). -/
def isAbs (p : String) : Bool :=
  match p.data with
  | c :: _ => c = '/'
  | [] => false

/-- `os.path.abspath` (POSIX, no `.`/`..` segments in the inputs used here):
prefix the current working directory onto a relative path. -/
def abspath (cwd : String) (p : String) : String :=
  if isAbs p then p else cwd ++ "/" ++ p

/-- Python `s.replace("\\", "/")`: the pattern is a single character, so this
is a character-wise map. -/
def backslashToSlash (s : String) : String :=
  ⟨s.data.map (fun c => if c = '\\' then '/' else c)⟩

/-! ## The filter -/

/-- The filter instance: output directory and chosen renderer binary. -/
structure SvgbobInline where
  dir_to : String
  svgbob_cmd : String
  deriving Repr, DecidableEq

/-- `SvgbobInline.__init__`: pick `svgbob_cli` if on the path, else `svgbob`,
else raise `AssertionError`.  `binsOnPath` is the set of executable names
`shutil.which` finds. -/
def SvgbobInline.mkInit (binsOnPath : List String) : Except String SvgbobInline :=
  if binsOnPath.contains "svgbob_cli" then .ok ⟨"svg", "svgbob_cli"⟩
  else if binsOnPath.contains "svgbob" then .ok ⟨"svg", "svgbob"⟩
  else .error "svgbob or svgbob_cli is not in path"

/-- The `font_family` binding of `get_options`:
`attributes.get("font-family", doc.get_metadata("svgbob.font-family", "Arial"))`. -/
def resolved_font_family (attributes : Attributes) (doc : Doc) : Option Value :=
  attrGet attributes "font-family" (doc.get_metadata "svgbob.font-family" (some (.str "Arial")))

/-- The `font_size` binding of `get_options`. -/
def resolved_font_size (attributes : Attributes) (doc : Doc) : Option Value :=
  attrGet attributes "font-size" (doc.get_metadata "svgbob.font-size" (some (.int 14)))

/-- The `scale` binding of `get_options`. -/
def resolved_scale (attributes : Attributes) (doc : Doc) : Option Value :=
  attrGet attributes "scale" (doc.get_metadata "svgbob.scale" (some (.int 1)))

/-- The `stroke_width` binding of `get_options`. -/
def resolved_stroke_width (attributes : Attributes) (doc : Doc) : Option Value :=
  attrGet attributes "stroke-width" (doc.get_metadata "svgbob.stroke-width" (some (.int 2)))

/-- The five segments joined (with `" ".join`) into the option string by
`SvgbobInline.get_options`.  A tunable that resolved to `None` contributes an
empty segment; the background segment is a fixed constant. -/
def SvgbobInline.option_segments (attributes : Attributes) (doc : Doc) : List String :=
  let font_family := resolved_font_family attributes doc
  let font_size := resolved_font_size attributes doc
  let scale := resolved_scale attributes doc
  let stroke_width := resolved_stroke_width attributes doc
  [match font_family with
   | some v => "--font-family \"" ++ v.fmt ++ "\""
   | none => "",
   match font_size with
   | some v => "--font-size " ++ v.fmt
   | none => "",
   match scale with
   | some v => "--scale " ++ v.fmt
   | none => "",
   match stroke_width with
   | some v => "--stroke-width " ++ v.fmt
   | none => "",
   "--background \"#fdf6e3\""]

/-- `SvgbobInline.get_options(attributes, doc)`. -/
def SvgbobInline.get_options (attributes : Attributes) (doc : Doc) : String :=
  joinWith " " (SvgbobInline.option_segments attributes doc)

/-- Result of converting one node: the side-effect trace, the input node as
left behind by the filter (the code mutates `elem.classes` in place), and the
returned replacement node. -/
structure ProcessResult where
  effects : List Effect
  mutatedInput : Elem
  replacement : Elem
  deriving Repr, DecidableEq

/-- `SvgbobInline.process_codeblock(elem, doc)`.  `cwd` is the process working
directory (`os.path.abspath` resolves against it); `dirExists` is whether
`self.dir_to` exists on entry. -/
def SvgbobInline.process_codeblock (st : SvgbobInline) (cwd : String) (dirExists : Bool)
    (text identifier : String) (classes : List String) (attributes : Attributes)
    (doc : Doc) : ProcessResult :=
  let mkdirEff := if dirExists then [] else [Effect.mkdir st.dir_to]
  let counter := strTake (sha1_hexdigest (utf8Bytes text)) 8
  let basename := joinWith "/" [st.dir_to, counter]
  let linkto := backslashToSlash (abspath cwd (joinWith "." [basename, "svg"]))
  let svgbob_option := SvgbobInline.get_options attributes doc
  let command := st.svgbob_cmd ++ " " ++ svgbob_option ++ " -o " ++ linkto
  let newClasses := classes.erase "svgbob"
  { effects := mkdirEff ++
      [.debug command,
       .popenCommunicate command text,
       .debug ("[codeblock] generate svgbob to " ++ linkto)]
    mutatedInput := .codeBlock text identifier newClasses attributes
    replacement := .para (.image [] linkto identifier newClasses attributes "") }

/-- The link branch of `SvgbobInline.action`.  `fileContent` is what
`open(fn, encoding="utf-8").read()` returns for the link target. -/
def SvgbobInline.process_link (st : SvgbobInline) (cwd : String) (dirExists : Bool)
    (content : List String) (url identifier : String) (classes : List String)
    (attributes : Attributes) (title : String) (fileContent : String)
    (doc : Doc) : ProcessResult :=
  let mkdirEff := if dirExists then [] else [Effect.mkdir st.dir_to]
  let data := fileContent
  let counter := strTake (sha1_hexdigest (utf8Bytes data)) 8
  let basename := joinWith "/" [st.dir_to, counter]
  let fn := abspath cwd url
  let linkto := backslashToSlash (abspath cwd (joinWith "." [basename, "svg"]))
  let svgbob_option := SvgbobInline.get_options attributes doc
  let command := st.svgbob_cmd ++ " " ++ fn ++ " " ++ svgbob_option ++ " -o " ++ linkto
  let newClasses := classes.erase "svgbob"
  { effects := mkdirEff ++
      [.readFile url,
       .debug command,
       .popenSpawn command,
       .debug ("[inline] generate svgbob from " ++ fn ++ " to " ++ linkto)]
    mutatedInput := .link content url identifier newClasses attributes title
    replacement := .image content linkto identifier newClasses attributes "fig:" }

/-- `SvgbobInline.action(elem, doc)`: the dispatcher.  Returning `none` is
Python `return None`, which tells panflute to keep the element unchanged.
`readFs` supplies the content of files read by the link branch. -/
def SvgbobInline.action (st : SvgbobInline) (cwd : String) (dirExists : Bool)
    (readFs : String → String) (elem : Elem) (doc : Doc) : Option ProcessResult :=
  match elem with
  | .codeBlock text identifier classes attributes =>
      if classes.contains "svgbob" then
        some (st.process_codeblock cwd dirExists text identifier classes attributes doc)
      else none
  | .link content url identifier classes attributes title =>
      if classes.contains "svgbob" then
        some (st.process_link cwd dirExists content url identifier classes attributes
          title (readFs url) doc)
      else none
  | _ => none

/-- The tree rewrite panflute performs from the action's return value: `None`
keeps the node, a returned element replaces it. -/
def SvgbobInline.applyAction (st : SvgbobInline) (cwd : String) (dirExists : Bool)
    (readFs : String → String) (elem : Elem) (doc : Doc) : Elem :=
  match st.action cwd dirExists readFs elem doc with
  | none => elem
  | some r => r.replacement

/-- Run the action over a list of nodes in document order, threading whether
the output directory exists (a `mkdir` effect creates it). -/
def runElems (st : SvgbobInline) (cwd : String) (readFs : String → String)
    (doc : Doc) : Bool → List Elem → List Effect × List Elem
  | _, [] => ([], [])
  | dirExists, e :: rest =>
    match st.action cwd dirExists readFs e doc with
    | none =>
        let (effs, es) := runElems st cwd readFs doc dirExists rest
        (effs, e :: es)
    | some r =>
        let (effs, es) := runElems st cwd readFs doc true rest
        (r.effects ++ effs, r.replacement :: es)

/-- `main`: construct the filter instance (which locates the renderer binary),
then run the action over the document.  If neither binary name is on the path,
the `AssertionError` from `__init__` aborts before any node is visited and
before any effect is performed. -/
def mainRun (binsOnPath : List String) (cwd : String) (dirExists : Bool)
    (readFs : String → String) (doc : Doc) (elems : List Elem) :
    Except String (List Effect × List Elem) :=
  match SvgbobInline.mkInit binsOnPath with
  | .error e => .error e
  | .ok st => .ok (runElems st cwd readFs doc dirExists elems)

/-! ## Spec-side definitions and projections used by the theorems -/

/-- The option-resolution rule as the spec words it: value =
`nodeAttributes[key]` if present, else `document.metadata["svgbob.<key>"]` if
present, else the fixed default. -/
def resolve_value_spec (attributes : Attributes) (doc : Doc)
    (attrKey metaKey : String) (dflt : Value) : Option Value :=
  match attributes.lookup attrKey with
  | some v => some v
  | none =>
    match doc.metadata.lookup metaKey with
    | some v => v
    | none => some dflt

/-- The option string as the spec describes it: each tunable resolved by
`resolve_value_spec` with its spec-stated keys and default, formatted into its
flag, joined, with the fixed background option always appended. -/
def get_options_spec (attributes : Attributes) (doc : Doc) : String :=
  joinWith " "
    [match resolve_value_spec attributes doc "font-family" "svgbob.font-family" (.str "Arial") with
     | some v => "--font-family \"" ++ v.fmt ++ "\""
     | none => "",
     match resolve_value_spec attributes doc "font-size" "svgbob.font-size" (.int 14) with
     | some v => "--font-size " ++ v.fmt
     | none => "",
     match resolve_value_spec attributes doc "scale" "svgbob.scale" (.int 1) with
     | some v => "--scale " ++ v.fmt
     | none => "",
     match resolve_value_spec attributes doc "stroke-width" "svgbob.stroke-width" (.int 2) with
     | some v => "--stroke-width " ++ v.fmt
     | none => "",
     "--background \"#fdf6e3\""]

/-- The artifact path as the claims word it:
`<output-dir>/<first 8 hex chars of the SHA-1 of the UTF-8 encoded text>.svg`,
made absolute against the working directory with separators normalized. -/
def claimedArtifactPath (st : SvgbobInline) (cwd text : String) : String :=
  backslashToSlash
    (abspath cwd (st.dir_to ++ "/" ++ strTake (sha1_hexdigest (utf8Bytes text)) 8 ++ ".svg"))

/-- Url of the image node a conversion returned (`para (image ...)` in the
code-block path, a bare `image` in the link path). -/
def replacementUrl : Elem → Option String
  | .para (.image _ url _ _ _ _) => some url
  | .image _ url _ _ _ _ => some url
  | _ => none

/-- Classification labels of an element (of the image inside, for a `para`
wrapper). -/
def elemClasses : Elem → List String
  | .codeBlock _ _ cs _ => cs
  | .link _ _ _ cs _ _ => cs
  | .image _ _ _ cs _ _ => cs
  | .para e => elemClasses e
  | .other _ => []

/-- The subprocess-launch effects of a trace, in order. -/
def launches (effs : List Effect) : List Effect :=
  effs.filter fun e =>
    match e with
    | .popenCommunicate _ _ => true
    | .popenSpawn _ => true
    | _ => false

/-- The command lines of the subprocess-launch effects of a trace, in order. -/
def launchCommands (effs : List Effect) : List String :=
  effs.filterMap fun e =>
    match e with
    | .popenCommunicate c _ => some c
    | .popenSpawn c => some c
    | _ => none

/-- Whether an element is a code block carrying the marker label. -/
def isMarkedCodeBlock : Elem → Bool
  | .codeBlock _ _ cs _ => cs.contains "svgbob"
  | _ => false

/-- Whether an element is a link carrying the marker label. -/
def isMarkedLink : Elem → Bool
  | .link _ _ _ cs _ _ => cs.contains "svgbob"
  | _ => false

end SvgbobFilter

namespace SvgbobFilter

/-! ## Theorems -/

/-- Helper: appending literal `"."` then `"svg"` is appending `".svg"`. -/
theorem dot_svg_append (s : String) : s ++ "." ++ "svg" = s ++ ".svg" := by
  rw [String.append_assoc]; rfl

/-- Helper: a five-element `" ".join` ends with its last element. -/
theorem joinWith_five_suffix (sep a b c d e : String) :
    ∃ p, joinWith sep [a, b, c, d, e] = p ++ e :=
  ⟨a ++ sep ++ (b ++ sep ++ (c ++ sep ++ (d ++ sep))), by
    simp [joinWith, String.append_assoc]⟩

/-- Helper: the code's per-tunable resolution (`attributes.get` over
`doc.get_metadata`) equals the resolution rule as the spec words it. -/
theorem attrGet_metadata_eq_spec (attributes : Attributes) (doc : Doc)
    (attrKey metaKey : String) (dflt : Value) :
    attrGet attributes attrKey (doc.get_metadata metaKey (some dflt))
      = resolve_value_spec attributes doc attrKey metaKey dflt := by
  unfold attrGet Doc.get_metadata resolve_value_spec
  cases attributes.lookup attrKey <;> cases doc.metadata.lookup metaKey <;> rfl

/-- C1: for every source text, the derived artifact path is
`<output-dir>/<first 8 hex chars of the SHA-1 of the UTF-8 encoding of the
text>.svg` (made absolute against the working directory); it is a pure
function of the content and the output directory — identical across any two
runs with the same content, and unchanged under any variation of node
identifier, classes, attributes, or document metadata — and the same in the
code-block and link conversion paths. -/
theorem artifact_path_pure_function_of_content
    (st : SvgbobInline) (cwd : String) (d1 d2 d3 : Bool) (text : String)
    (id1 id2 id3 : String) (cs1 cs2 cs3 : List String) (a1 a2 a3 : Attributes)
    (doc1 doc2 doc3 : Doc) (content : List String) (url title : String) :
    replacementUrl (st.process_codeblock cwd d1 text id1 cs1 a1 doc1).replacement
      = some (claimedArtifactPath st cwd text) ∧
    replacementUrl (st.process_codeblock cwd d2 text id2 cs2 a2 doc2).replacement
      = some (claimedArtifactPath st cwd text) ∧
    replacementUrl (st.process_link cwd d3 content url id3 cs3 a3 title text doc3).replacement
      = some (claimedArtifactPath st cwd text) := by
  refine ⟨?_, ?_, ?_⟩ <;>
    simp [SvgbobInline.process_codeblock, SvgbobInline.process_link, replacementUrl,
      claimedArtifactPath, joinWith, dot_svg_append]

/-- C2: for each of the four tunables independently, the value used in the
option string is the node attribute when present, else the metadata value
under `svgbob.<key>` when present, else the fixed default (`"Arial"`, 14, 1,
2); equivalently, the produced option string coincides with the one built
from the spec's resolution rule. -/
theorem option_resolution_priority (attributes : Attributes) (doc : Doc) :
    SvgbobInline.get_options attributes doc = get_options_spec attributes doc ∧
    resolved_font_family attributes doc
      = resolve_value_spec attributes doc "font-family" "svgbob.font-family" (.str "Arial") ∧
    resolved_font_size attributes doc
      = resolve_value_spec attributes doc "font-size" "svgbob.font-size" (.int 14) ∧
    resolved_scale attributes doc
      = resolve_value_spec attributes doc "scale" "svgbob.scale" (.int 1) ∧
    resolved_stroke_width attributes doc
      = resolve_value_spec attributes doc "stroke-width" "svgbob.stroke-width" (.int 2) := by
  refine ⟨?_, ?_, ?_, ?_, ?_⟩ <;>
    simp [SvgbobInline.get_options, get_options_spec, SvgbobInline.option_segments,
      resolved_font_family, resolved_font_size, resolved_scale, resolved_stroke_width,
      attrGet_metadata_eq_spec]

/-- C3 as stated is false: `list.remove` drops only the first occurrence of
the marker label, so a code block whose classification list carries the
marker twice is converted, yet the returned image node still carries the
marker label. -/
theorem marker_label_duplicate_counterexample :
    "svgbob" ∈ elemClasses (SvgbobInline.process_codeblock ⟨"svg", "svgbob_cli"⟩ "/doc" true
      "x" "" ["svgbob", "svgbob"] [] ⟨[]⟩).replacement := by decide

/-- C3 amended: for every converted node (code block or link), the first
occurrence of the marker label is removed from the classification list carried
to the returned image node, and all other labels — including any further
duplicate marker labels — are preserved in their original order; in
particular, when the marker occurs exactly once it is absent from the
output. -/
theorem marker_label_erased_first_occurrence
    (st : SvgbobInline) (cwd : String) (d : Bool) (text id1 : String) (cs : List String)
    (a : Attributes) (doc : Doc) (content : List String) (url id2 title fileContent : String)
    (h : "svgbob" ∈ cs) :
    elemClasses (st.process_codeblock cwd d text id1 cs a doc).replacement
      = cs.erase "svgbob" ∧
    elemClasses (st.process_link cwd d content url id2 cs a title fileContent doc).replacement
      = cs.erase "svgbob" ∧
    (∃ l1 l2, "svgbob" ∉ l1 ∧ cs = l1 ++ "svgbob" :: l2 ∧ cs.erase "svgbob" = l1 ++ l2) ∧
    (cs.count "svgbob" = 1 → "svgbob" ∉ cs.erase "svgbob") := by
  refine ⟨?_, ?_, ?_, ?_⟩
  · simp [SvgbobInline.process_codeblock, elemClasses]
  · simp [SvgbobInline.process_link, elemClasses]
  · exact List.exists_erase_eq h
  · intro hc
    have hcount := List.count_erase_self "svgbob" cs
    rw [hc] at hcount
    exact List.count_eq_zero.mp hcount

/-- Witness for C3 amended at a concrete input. -/
theorem marker_label_erased_first_occurrence_witness :
    "svgbob" ∈ ["svgbob", "keep"] ∧
    elemClasses (SvgbobInline.process_codeblock ⟨"svg", "svgbob_cli"⟩ "/doc" true "x" ""
        ["svgbob", "keep"] [] ⟨[]⟩).replacement = ["svgbob", "keep"].erase "svgbob" :=
  ⟨by decide,
   (marker_label_erased_first_occurrence ⟨"svg", "svgbob_cli"⟩ "/doc" true "x" ""
     ["svgbob", "keep"] [] ⟨[]⟩ [] "d.txt" "" "t" "y" (by decide)).1⟩

/-- C4: for every node that is neither a code block carrying the marker label
nor a link carrying it, the dispatcher returns `None`, so the node is kept
unchanged (identity) and nothing is modified. -/
theorem dispatcher_identity_on_unmarked
    (st : SvgbobInline) (cwd : String) (d : Bool) (readFs : String → String)
    (elem : Elem) (doc : Doc)
    (h1 : isMarkedCodeBlock elem = false) (h2 : isMarkedLink elem = false) :
    st.action cwd d readFs elem doc = none ∧
    st.applyAction cwd d readFs elem doc = elem := by
  cases elem <;>
    simp_all [SvgbobInline.action, SvgbobInline.applyAction, isMarkedCodeBlock, isMarkedLink]

/-- Witness for C4 at a concrete input: a code block without the marker. -/
theorem dispatcher_identity_on_unmarked_witness :
    isMarkedCodeBlock (Elem.codeBlock "a--b" "" ["python"] []) = false ∧
    SvgbobInline.applyAction ⟨"svg", "svgbob_cli"⟩ "/doc" true (fun _ => "")
      (Elem.codeBlock "a--b" "" ["python"] []) ⟨[]⟩ = Elem.codeBlock "a--b" "" ["python"] [] :=
  ⟨by decide,
   (dispatcher_identity_on_unmarked ⟨"svg", "svgbob_cli"⟩ "/doc" true (fun _ => "")
     (Elem.codeBlock "a--b" "" ["python"] []) ⟨[]⟩ (by decide) (by decide)).2⟩

/-- C5: for a code block with text `"a--b"`, empty attributes and empty
metadata, the resolved option string is exactly the default flags followed by
the fixed background option, and the derived output path is
`svg/<sha1("a--b")[:8]>.svg` (= `svg/73823f1b.svg`) under the working
directory. -/
theorem example_codeblock_defaults :
    SvgbobInline.get_options [] ⟨[]⟩
      = "--font-family \"Arial\" --font-size 14 --scale 1 --stroke-width 2 --background \"#fdf6e3\"" ∧
    strTake (sha1_hexdigest (utf8Bytes "a--b")) 8 = "73823f1b" ∧
    (SvgbobInline.process_codeblock ⟨"svg", "svgbob_cli"⟩ "/doc" true "a--b" "" ["svgbob"] []
        ⟨[]⟩).replacement
      = .para (.image [] (abspath "/doc" "svg/73823f1b.svg") "" [] [] "") := by
  exact ⟨by decide, by decide, by decide⟩

/-- C6: if neither renderer binary name is on the system path, `__init__`
raises its `AssertionError` before any node is visited: the whole run aborts
with that error, so no effect — in particular no `mkdir` of the output
directory — is performed. -/
theorem missing_renderer_aborts_before_processing
    (binsOnPath : List String) (cwd : String) (dirExists : Bool)
    (readFs : String → String) (doc : Doc) (elems : List Elem)
    (h1 : binsOnPath.contains "svgbob_cli" = false)
    (h2 : binsOnPath.contains "svgbob" = false) :
    mainRun binsOnPath cwd dirExists readFs doc elems
      = .error "svgbob or svgbob_cli is not in path" ∧
    ∀ r, mainRun binsOnPath cwd dirExists readFs doc elems ≠ Except.ok r := by
  have h1m : "svgbob_cli" ∉ binsOnPath := by simpa using h1
  have h2m : "svgbob" ∉ binsOnPath := by simpa using h2
  have h : mainRun binsOnPath cwd dirExists readFs doc elems
      = .error "svgbob or svgbob_cli is not in path" := by
    simp [mainRun, SvgbobInline.mkInit, h1m, h2m]
  exact ⟨h, fun r hr => by rw [h] at hr; exact Except.noConfusion hr⟩

/-- Witness for C6 at a concrete input. -/
theorem missing_renderer_aborts_before_processing_witness :
    List.contains ["pandoc"] "svgbob_cli" = false ∧
    mainRun ["pandoc"] "/doc" false (fun _ => "") ⟨[]⟩ [Elem.codeBlock "a" "" ["svgbob"] []]
      = .error "svgbob or svgbob_cli is not in path" :=
  ⟨by decide,
   (missing_renderer_aborts_before_processing ["pandoc"] "/doc" false (fun _ => "") ⟨[]⟩
     [Elem.codeBlock "a" "" ["svgbob"] []] (by decide) (by decide)).1⟩

/-- C7 as stated is false for the link path: the command interpolates the
positional source-file path right after the binary, BEFORE the option flags,
not after them. -/
theorem link_command_order_counterexample :
    launchCommands (SvgbobInline.process_link ⟨"svg", "svgbob_cli"⟩ "/doc" true
        [] "diagram.txt" "" ["svgbob"] [] "" "x->y" ⟨[]⟩).effects
      = ["svgbob_cli /doc/diagram.txt --font-family \"Arial\" --font-size 14 --scale 1 --stroke-width 2 --background \"#fdf6e3\" -o /doc/svg/6c167aec.svg"] ∧
    launchCommands (SvgbobInline.process_link ⟨"svg", "svgbob_cli"⟩ "/doc" true
        [] "diagram.txt" "" ["svgbob"] [] "" "x->y" ⟨[]⟩).effects
      ≠ ["svgbob_cli --font-family \"Arial\" --font-size 14 --scale 1 --stroke-width 2 --background \"#fdf6e3\" /doc/diagram.txt -o /doc/svg/6c167aec.svg"] := by
  exact ⟨by decide, by decide⟩

/-- C7 amended: every renderer invocation is `<binary>`, then — in the link
path only — the positional absolute source-file path, then the option flags
ending with `--background "#fdf6e3"`, then `-o <output-path>`; the positional
source-file argument PRECEDES the option flags. -/
theorem renderer_command_shape
    (st : SvgbobInline) (cwd : String) (d : Bool) (text id1 : String) (cs : List String)
    (a : Attributes) (doc : Doc) (content : List String) (url id2 title fileContent : String)
    (cs2 : List String) (a2 : Attributes) (doc2 : Doc) :
    launchCommands (st.process_codeblock cwd d text id1 cs a doc).effects
      = [st.svgbob_cmd ++ " " ++ SvgbobInline.get_options a doc ++ " -o "
          ++ claimedArtifactPath st cwd text] ∧
    launchCommands (st.process_link cwd d content url id2 cs2 a2 title fileContent doc2).effects
      = [st.svgbob_cmd ++ " " ++ abspath cwd url ++ " " ++ SvgbobInline.get_options a2 doc2
          ++ " -o " ++ claimedArtifactPath st cwd fileContent] ∧
    (∃ p, SvgbobInline.get_options a doc = p ++ "--background \"#fdf6e3\"") := by
  refine ⟨?_, ?_, ?_⟩
  · cases d <;>
      simp [SvgbobInline.process_codeblock, launchCommands, claimedArtifactPath,
        joinWith, dot_svg_append]
  · cases d <;>
      simp [SvgbobInline.process_link, launchCommands, claimedArtifactPath,
        joinWith, dot_svg_append]
  · exact joinWith_five_suffix " " _ _ _ _ _

/-- C8 as stated is false: the conversion mutates the input node in place —
`elem.classes.remove("svgbob")` strips the marker from the ORIGINAL node's
classification list before the replacement is built. -/
theorem input_mutation_counterexample :
    (SvgbobInline.process_codeblock ⟨"svg", "svgbob_cli"⟩ "/doc" true "x" "" ["svgbob"] []
        ⟨[]⟩).mutatedInput
      ≠ Elem.codeBlock "x" "" ["svgbob"] [] ∧
    (SvgbobInline.process_codeblock ⟨"svg", "svgbob_cli"⟩ "/doc" true "x" "" ["svgbob"] []
        ⟨[]⟩).mutatedInput
      = Elem.codeBlock "x" "" [] [] := by
  exact ⟨by decide, by decide⟩

/-- C8 amended: the conversion returns a freshly constructed replacement node
(distinct from the input node), but it mutates the input node in place: the
first occurrence of the marker label is removed from its classification list,
while its payload (text / url and caption), identifier and attributes are left
unchanged. -/
theorem conversion_mutates_input_classes
    (st : SvgbobInline) (cwd : String) (d : Bool) (text id1 : String) (cs : List String)
    (a : Attributes) (doc : Doc) (content : List String) (url id2 title fileContent : String)
    (cs2 : List String) (a2 : Attributes) (doc2 : Doc) :
    (st.process_codeblock cwd d text id1 cs a doc).mutatedInput
      = .codeBlock text id1 (cs.erase "svgbob") a ∧
    (st.process_link cwd d content url id2 cs2 a2 title fileContent doc2).mutatedInput
      = .link content url id2 (cs2.erase "svgbob") a2 title ∧
    (st.process_codeblock cwd d text id1 cs a doc).replacement
      ≠ .codeBlock text id1 cs a ∧
    (st.process_link cwd d content url id2 cs2 a2 title fileContent doc2).replacement
      ≠ .link content url id2 cs2 a2 title := by
  refine ⟨rfl, rfl, ?_, ?_⟩ <;>
    simp [SvgbobInline.process_codeblock, SvgbobInline.process_link]

/-- C9: in the code-block path the single subprocess launch is a
`Popen` + `communicate` (feeding the source text on standard input and
blocking until the subprocess has exited) before the replacement node is
returned; in the link path the single subprocess launch is a bare `Popen`,
which returns without waiting for completion or checking the exit status. -/
theorem subprocess_wait_asymmetry
    (st : SvgbobInline) (cwd : String) (d : Bool) (text id1 : String) (cs : List String)
    (a : Attributes) (doc : Doc) (content : List String) (url id2 title fileContent : String)
    (cs2 : List String) (a2 : Attributes) (doc2 : Doc) :
    (∃ cmd, launches (st.process_codeblock cwd d text id1 cs a doc).effects
        = [Effect.popenCommunicate cmd text]) ∧
    (∃ cmd, launches (st.process_link cwd d content url id2 cs2 a2 title fileContent doc2).effects
        = [Effect.popenSpawn cmd]) := by
  constructor
  · refine ⟨st.svgbob_cmd ++ " " ++ SvgbobInline.get_options a doc ++ " -o "
      ++ claimedArtifactPath st cwd text, ?_⟩
    cases d <;>
      simp [SvgbobInline.process_codeblock, launches, claimedArtifactPath,
        joinWith, dot_svg_append]
  · refine ⟨st.svgbob_cmd ++ " " ++ abspath cwd url ++ " "
      ++ SvgbobInline.get_options a2 doc2 ++ " -o "
      ++ claimedArtifactPath st cwd fileContent, ?_⟩
    cases d <;>
      simp [SvgbobInline.process_link, launches, claimedArtifactPath,
        joinWith, dot_svg_append]

/-- C10: option resolution is total, and when a tunable resolves to `None`
(for example a metadata key that is present but null, with no overriding node
attribute) its flag is entirely absent: an empty segment is joined in its
place, while the background option segment is always present. -/
theorem none_valued_tunable_flag_absent (attributes : Attributes) (doc : Doc) :
    (resolved_font_family attributes doc = none →
      (SvgbobInline.option_segments attributes doc)[0]? = some "") ∧
    (resolved_font_size attributes doc = none →
      (SvgbobInline.option_segments attributes doc)[1]? = some "") ∧
    (resolved_scale attributes doc = none →
      (SvgbobInline.option_segments attributes doc)[2]? = some "") ∧
    (resolved_stroke_width attributes doc = none →
      (SvgbobInline.option_segments attributes doc)[3]? = some "") ∧
    (SvgbobInline.option_segments attributes doc)[4]? = some "--background \"#fdf6e3\"" ∧
    SvgbobInline.get_options attributes doc
      = joinWith " " (SvgbobInline.option_segments attributes doc) := by
  refine ⟨?_, ?_, ?_, ?_, ?_, rfl⟩ <;>
    first
      | (intro h; simp [SvgbobInline.option_segments, h])
      | simp [SvgbobInline.option_segments]

/-- Witness for C10: metadata binds `svgbob.font-size` to null and no
attribute overrides it. -/
theorem none_valued_tunable_flag_absent_witness :
    resolved_font_size [] ⟨[("svgbob.font-size", none)]⟩ = none ∧
    (SvgbobInline.option_segments [] ⟨[("svgbob.font-size", none)]⟩)[1]? = some "" ∧
    (SvgbobInline.option_segments [] ⟨[("svgbob.font-size", none)]⟩)[4]?
      = some "--background \"#fdf6e3\"" :=
  ⟨by decide,
   (none_valued_tunable_flag_absent [] ⟨[("svgbob.font-size", none)]⟩).2.1 (by decide),
   (none_valued_tunable_flag_absent [] ⟨[("svgbob.font-size", none)]⟩).2.2.2.2.1⟩

end SvgbobFilter
